import Mathlib

/-!
Verification development for the ScholarX backend (`src/demo.js`): an Express
application exposing REST endpoints over MongoDB, gated by a Firebase bearer
token middleware (`checkAuth`) and per-handler role checks.

The embedding is shallow: each Express handler becomes a Lean function from
the request data, the authenticated claim set and the document-store state to
an optional HTTP response (`none` models an async handler that throws without
a surrounding try/catch, so that no response is ever sent) together with the
resulting store state.  Persistence fallibility is modelled by an
`Option String` argument: `none` means every persistence call of the request
succeeds, `some err` means each persistence call rejects with error `err`.
-/

namespace ScholarX

/-- The verified claim set Firebase `verifyIdToken` attaches as `req.user`:
subject id `uid`, `email`, display `name`, and the `role` field the handlers
read from `req.user.role` (absent unless present as a custom claim). -/
structure AuthUser where
  uid : String
  email : String
  name : String
  role : Option String := none
deriving DecidableEq, Repr

/-- A stored `User` document (schema at `src/demo.js` lines 42-56):
`_id` is the Mongo document id, `role` defaults to `"student"`. -/
structure UserRec where
  _id : String := ""
  firebase_uid : String
  full_name : String
  email : String
  role : String := "student"
  university : String := ""
  research_interests : List String := []
  citations : Nat := 0
deriving DecidableEq, Repr

/-- The `eligibility` sub-document of the Research schema. -/
structure Eligibility where
  degree : String := ""
  year : List String := []
  skills_required : List String := []
deriving DecidableEq, Repr

/-- A stored `Research` document (schema at `src/demo.js` lines 59-73):
`status` defaults to `"open"`. -/
structure ResearchRec where
  title : String := ""
  description : String := ""
  professor_id : String := ""
  university : String := ""
  eligibility : Eligibility := {}
  status : String := "open"
  applicants : List String := []
deriving DecidableEq, Repr

/-- Modelled from the spec: the `Application` model is constructed and saved
by the POST `/api/apply` handler (`src/demo.js` lines 160-166) but its schema
is not declared in `src/demo.js`; spec section 3 gives it a student reference
(`student_id`), a research reference (`research_id`) and a free-text body
(`application_text`), the exact fields the handler writes. -/
structure ApplicationRec where
  student_id : String
  research_id : String
  application_text : String
deriving DecidableEq, Repr

/-- Modelled from the spec: the `Discussion` model is read by the GET
`/api/discussions` handler (`src/demo.js` line 172) but not declared in
`src/demo.js`; spec section 3 assumes a creator reference (`created_by`,
populated against User) and content fields. -/
structure DiscussionRec where
  created_by : String := ""
  content : String := ""
deriving DecidableEq, Repr

/-- The document store: one collection per model, plus a counter supplying
fresh Mongo document ids for inserted `User` documents. -/
structure Store where
  users : List UserRec := []
  research : List ResearchRec := []
  applications : List ApplicationRec := []
  discussions : List DiscussionRec := []
  nextId : Nat := 0
deriving DecidableEq, Repr

/-- An incoming request: the `Authorization` header and the JSON body fields
the handlers read (`research_id` and `application_text` for `/api/apply`,
a whole research document for `/api/research`). -/
structure Req where
  authorization : Option String := none
  research_id : String := ""
  application_text : String := ""
  researchBody : ResearchRec := {}
deriving DecidableEq, Repr

/-- A serialized document: an ordered list of field-name/value pairs, the
shape `res.json` sends for a query result record. -/
abbrev Doc := List (String × String)

/-- JSON serialization of a stored `User` document (every schema field plus
the Mongo `_id`). -/
def UserRec.toDoc (u : UserRec) : Doc :=
  [("_id", u._id),
   ("firebase_uid", u.firebase_uid),
   ("full_name", u.full_name),
   ("email", u.email),
   ("role", u.role),
   ("university", u.university),
   ("research_interests", String.intercalate "," u.research_interests),
   ("citations", toString u.citations)]

/-- Mongoose `.select("-field")`: drop the named field from a serialized
document. -/
def selectWithout (field : String) (d : Doc) : Doc :=
  d.filter (fun kv => kv.1 ≠ field)

/-- `User.find(filter)` over the store. -/
def findUsers (s : Store) (p : UserRec → Bool) : List UserRec :=
  s.users.filter p

/-- `User.find(filter).select("-firebase_uid")`: the serialized documents of
the matching users with the `firebase_uid` field removed. -/
def findUsersNoUid (s : Store) (p : UserRec → Bool) : List Doc :=
  (findUsers s p).map (fun u => selectWithout "firebase_uid" u.toDoc)

/-- A response body, one constructor per JSON shape the handlers send. -/
inductive Body where
  /-- `res.json({ message })`. -/
  | msg (message : String) : Body
  /-- `res.json({ message, error })`: a message with the raw caught error. -/
  | msgErr (message : String) (error : String) : Body
  /-- `res.json({ message, user })` from the login handler. -/
  | loginOk (message : String) (user : UserRec) : Body
  /-- A list of serialized user documents. -/
  | userDocs (docs : List Doc) : Body
  /-- The created research document echoed by POST `/api/research`. -/
  | research (r : ResearchRec) : Body
  /-- Research listing: each record with its populated professor
  `(full_name, email)` when the reference resolves. -/
  | researchList (l : List (ResearchRec × Option (String × String))) : Body
  /-- `res.json({ message, application })` from POST `/api/apply`. -/
  | applyOk (message : String) (a : ApplicationRec) : Body
  /-- Discussion listing with the populated creator. -/
  | discussionList (l : List (DiscussionRec × Option (String × String))) : Body
  /-- `res.json(undefined)`: a 200 with an empty body. -/
  | empty : Body
deriving DecidableEq, Repr

/-- A sent HTTP response: status code and JSON body. -/
abbrev Resp := Nat × Body

/-- Character-level worker for JavaScript `String.prototype.split` with a
non-empty string separator: scan left to right, at each position either emit
the accumulated segment when the separator matches there (then skip its
remaining characters via the counter), or keep the character.  Structural
recursion, so the kernel can evaluate it on concrete strings. -/
def splitGo (sep : List Char) : List Char → Nat → List Char → List (List Char)
  | [], _, acc => [acc.reverse]
  | _ :: rest, skip + 1, acc => splitGo sep rest skip acc
  | c :: rest, 0, acc =>
    if sep.isPrefixOf (c :: rest) then
      acc.reverse :: splitGo sep rest (sep.length - 1) []
    else splitGo sep rest 0 (c :: acc)

/-- JavaScript `s.split(sep)` for a non-empty string separator. -/
def jsSplit (s sep : String) : List String :=
  (splitGo sep.toList s.toList 0 []).map String.mk

/-- The token extraction of `checkAuth` (`src/demo.js` line 26):
`req.headers.authorization?.split("Bearer ")[1]`, with JavaScript falsiness
turning an absent element or the empty string into no token. -/
def extractToken (authorization : Option String) : Option String :=
  match authorization with
  | none => none
  | some h =>
    match (jsSplit h "Bearer ")[1]? with
    | none => none
    | some t => if t = "" then none else some t

/-- Outcome of the authentication middleware: either a 401 rejection sent
immediately, or the verified claim set attached to the request. -/
inductive AuthResult where
  | reject401 (message : String) : AuthResult
  | proceed (user : AuthUser) : AuthResult
deriving DecidableEq, Repr

/-- The `checkAuth` middleware (`src/demo.js` lines 25-39), with the Firebase
verifier abstracted as `verify : String → Option AuthUser`. -/
def checkAuth (authorization : Option String)
    (verify : String → Option AuthUser) : AuthResult :=
  match extractToken authorization with
  | none => .reject401 "Unauthorized: No token provided"
  | some token =>
    match verify token with
    | none => .reject401 "Unauthorized: Invalid token"
    | some u => .proceed u

/-- POST `/api/auth/login` (`src/demo.js` lines 78-88): look up the user by
the claimed email, create it (uid, name, email, defaults) when absent.  The
`await`s have no try/catch, so a persistence failure sends no response. -/
def loginHandler (u : AuthUser) (s : Store) (db : Option String) :
    Option Resp × Store :=
  match db with
  | some _ => (none, s)
  | none =>
    match s.users.find? (fun x => x.email = u.email) with
    | some usr => (some (200, .loginOk "Login successful" usr), s)
    | none =>
      let usr : UserRec :=
        { _id := toString s.nextId, firebase_uid := u.uid,
          full_name := u.name, email := u.email }
      (some (200, .loginOk "Login successful" usr),
       { s with users := s.users ++ [usr], nextId := s.nextId + 1 })

/-- GET `/api/users/professors` (`src/demo.js` lines 91-102): students only;
lists users with role professor, excluding `firebase_uid`; 500 with the raw
error on a failed query. -/
def getProfessorsHandler (u : AuthUser) (s : Store) (db : Option String) :
    Option Resp :=
  if u.role ≠ some "student" then some (403, .msg "Access denied")
  else
    match db with
    | some err => some (500, .msgErr "Error fetching professors" err)
    | none => some (200, .userDocs (findUsersNoUid s (fun x => x.role = "professor")))

/-- GET `/api/users/students` (`src/demo.js` lines 105-116): professors only;
lists users with role student, excluding `firebase_uid`. -/
def getStudentsHandler (u : AuthUser) (s : Store) (db : Option String) :
    Option Resp :=
  if u.role ≠ some "professor" then some (403, .msg "Access denied")
  else
    match db with
    | some err => some (500, .msgErr "Error fetching students" err)
    | none => some (200, .userDocs (findUsersNoUid s (fun x => x.role = "student")))

/-- GET `/api/users` (`src/demo.js` lines 119-135): role-dependent view; a
role outside the three branches leaves `users` undefined and `res.json`
sends a 200 with an empty body, with no query run. -/
def getUsersHandler (u : AuthUser) (s : Store) (db : Option String) :
    Option Resp :=
  if u.role = some "student" then
    match db with
    | some err => some (500, .msgErr "Error fetching users" err)
    | none => some (200, .userDocs (findUsersNoUid s (fun x => x.role = "professor")))
  else if u.role = some "professor" then
    match db with
    | some err => some (500, .msgErr "Error fetching users" err)
    | none => some (200, .userDocs (findUsersNoUid s (fun x => x.role = "student")))
  else if u.role = some "admin" then
    match db with
    | some err => some (500, .msgErr "Error fetching users" err)
    | none => some (200, .userDocs (findUsersNoUid s (fun _ => true)))
  else some (200, .empty)

/-- POST `/api/research` (`src/demo.js` lines 138-146): professors only;
inserts the request body as a research document and echoes it with 201.  The
`save` has no try/catch, so a persistence failure sends no response. -/
def postResearchHandler (u : AuthUser) (rq : Req) (s : Store)
    (db : Option String) : Option Resp × Store :=
  if u.role ≠ some "professor" then
    (some (403, .msg "Only professors can post research"), s)
  else
    match db with
    | some _ => (none, s)
    | none => (some (201, .research rq.researchBody),
               { s with research := s.research ++ [rq.researchBody] })

/-- GET `/api/research` (`src/demo.js` lines 149-152): no auth; lists all
research with the professor reference populated to `(full_name, email)`. -/
def getResearchHandler (s : Store) (db : Option String) : Option Resp :=
  match db with
  | some _ => none
  | none => some (200, .researchList (s.research.map (fun r =>
      (r, (s.users.find? (fun x => x._id = r.professor_id)).map
            (fun x => (x.full_name, x.email))))))

/-- POST `/api/apply` (`src/demo.js` lines 155-168): students only; builds an
application from the caller's uid and the body and saves it.

Modelled from the spec: the `Application` model the handler saves into is not
declared in `src/demo.js`; following spec sections 3 and 9 it is treated as an
ordinary document model, so `save` appends the record (and, like the declared
models' `save` calls here, has no try/catch: failure sends no response). -/
def postApplyHandler (u : AuthUser) (rq : Req) (s : Store)
    (db : Option String) : Option Resp × Store :=
  if u.role ≠ some "student" then
    (some (403, .msg "Only students can apply"), s)
  else
    let application : ApplicationRec :=
      { student_id := u.uid, research_id := rq.research_id,
        application_text := rq.application_text }
    match db with
    | some _ => (none, s)
    | none => (some (201, .applyOk "Application submitted" application),
               { s with applications := s.applications ++ [application] })

/-- GET `/api/discussions` (`src/demo.js` lines 171-174): no auth.

Modelled from the spec: the `Discussion` model is not declared in
`src/demo.js`; following spec section 3 it is a collection in the store and
the handler lists it with the creator reference populated against User. -/
def getDiscussionsHandler (s : Store) (db : Option String) : Option Resp :=
  match db with
  | some _ => none
  | none => some (200, .discussionList (s.discussions.map (fun d =>
      (d, (s.users.find? (fun x => x._id = d.created_by)).map
            (fun x => (x.full_name, x.email))))))

/-- The eight routes registered on the Express app. -/
inductive Endpoint where
  | postLogin | getProfessors | getStudents | getUsers
  | postResearch | getResearch | postApply | getDiscussions
deriving DecidableEq, Repr

/-- Whether the route is registered with the `checkAuth` middleware
(every route except GET `/api/research` and GET `/api/discussions`). -/
def isProtected : Endpoint → Bool
  | .getResearch => false
  | .getDiscussions => false
  | _ => true

/-- The role a role-gated handler requires before doing anything else:
`some r` exactly for the four handlers opening with a role check. -/
def requiredRole : Endpoint → Option String
  | .getProfessors => some "student"
  | .getStudents => some "professor"
  | .postResearch => some "professor"
  | .postApply => some "student"
  | _ => none

/-- Full request processing: run `checkAuth` on protected routes, then the
route's handler.  Returns the response sent (`none` when an unhandled
rejection leaves the request without a response) and the resulting store. -/
def handle (e : Endpoint) (rq : Req) (verify : String → Option AuthUser)
    (s : Store) (db : Option String) : Option Resp × Store :=
  match e with
  | .getResearch => (getResearchHandler s db, s)
  | .getDiscussions => (getDiscussionsHandler s db, s)
  | _ =>
    match checkAuth rq.authorization verify with
    | .reject401 m => (some (401, .msg m), s)
    | .proceed u =>
      match e with
      | .postLogin => loginHandler u s db
      | .getProfessors => (getProfessorsHandler u s db, s)
      | .getStudents => (getStudentsHandler u s db, s)
      | .getUsers => (getUsersHandler u s db, s)
      | .postResearch => postResearchHandler u rq s db
      | .postApply => postApplyHandler u rq s db
      | _ => (none, s)

/-- Status code of a processed request, when a response was sent. -/
def statusOf (r : Option Resp × Store) : Option Nat :=
  r.1.map Prod.fst

/-- Number of stored users with the given email (the email field carries a
unique index in the schema, so a well-formed store has at most one). -/
def countEmail (s : Store) (e : String) : Nat :=
  (s.users.filter (fun x => x.email = e)).length

/-- When the middleware cannot authenticate, it rejects with a 401. -/
theorem checkAuth_reject (authorization : Option String)
    (verify : String → Option AuthUser)
    (hfail : ∀ t, extractToken authorization = some t → verify t = none) :
    ∃ m, checkAuth authorization verify = .reject401 m := by
  unfold checkAuth
  cases h : extractToken authorization with
  | none => exact ⟨_, rfl⟩
  | some t =>
    refine ⟨"Unauthorized: Invalid token", ?_⟩
    simp [hfail t h]

/-- C1: a request to a protected endpoint whose Authorization header is
absent (no token extracted) or whose bearer token fails verification gets a
401 response with the middleware's message, and the store is untouched — no
handler runs after the middleware, so no persistence write occurs. -/
theorem c1_unauthenticated_401 (e : Endpoint) (rq : Req)
    (verify : String → Option AuthUser) (s : Store) (db : Option String)
    (hp : isProtected e = true)
    (hfail : ∀ t, extractToken rq.authorization = some t → verify t = none) :
    statusOf (handle e rq verify s db) = some 401 ∧
    (handle e rq verify s db).2 = s := by
  obtain ⟨m, hm⟩ := checkAuth_reject rq.authorization verify hfail
  cases e <;> simp_all [handle, isProtected, statusOf]

/-- C1 witness: a login request with no Authorization header against a
verifier that accepts nothing is answered 401 with the store unchanged. -/
theorem c1_witness :
    statusOf (handle .postLogin {} (fun _ => none) {} none) = some 401 ∧
    (handle .postLogin {} (fun _ => none) {} none).2 = {} :=
  c1_unauthenticated_401 .postLogin {} (fun _ => none) {} none rfl
    (fun _ _ => rfl)

/-- C2: an authenticated request to a role-gated endpoint whose caller role
differs from the endpoint's required role gets a 403 response and the store
is untouched — the role check runs before any persistence operation. -/
theorem c2_role_mismatch_403 (e : Endpoint) (r : String) (rq : Req)
    (verify : String → Option AuthUser) (s : Store) (db : Option String)
    (u : AuthUser)
    (hgate : requiredRole e = some r)
    (hauth : checkAuth rq.authorization verify = .proceed u)
    (hrole : u.role ≠ some r) :
    statusOf (handle e rq verify s db) = some 403 ∧
    (handle e rq verify s db).2 = s := by
  cases e <;> simp only [requiredRole, Option.some.injEq, reduceCtorEq] at hgate <;>
    subst hgate <;>
    simp [handle, hauth, getProfessorsHandler, getStudentsHandler,
      postResearchHandler, postApplyHandler, statusOf, hrole]

/-- C2 witness: an authenticated professor calling the student-only
professors listing is refused with 403 and the store is unchanged. -/
theorem c2_witness :
    statusOf (handle .getProfessors { authorization := some "Bearer tok" }
      (fun _ => some { uid := "p1", email := "p@uni.edu", name := "Prof",
                       role := some "professor" }) {} none) = some 403 ∧
    (handle .getProfessors { authorization := some "Bearer tok" }
      (fun _ => some { uid := "p1", email := "p@uni.edu", name := "Prof",
                       role := some "professor" }) {} none).2 = {} :=
  c2_role_mismatch_403 .getProfessors "student" _ _ {} none
    { uid := "p1", email := "p@uni.edu", name := "Prof",
      role := some "professor" } rfl (by decide) (by decide)

/-- C3: an authenticated student posting to `/api/apply` with research_id
"R1" appends exactly one application record, carrying the caller's verified
uid as `student_id` and "R1" as `research_id`, and is answered 201. -/
theorem c3_apply_creates_application (rq : Req)
    (verify : String → Option AuthUser) (s : Store) (u : AuthUser)
    (hauth : checkAuth rq.authorization verify = .proceed u)
    (hrole : u.role = some "student")
    (hrid : rq.research_id = "R1") :
    handle .postApply rq verify s none =
      (some (201, .applyOk "Application submitted"
         { student_id := u.uid, research_id := "R1",
           application_text := rq.application_text }),
       { s with applications := s.applications ++
         [{ student_id := u.uid, research_id := "R1",
            application_text := rq.application_text }] }) := by
  simp [handle, hauth, postApplyHandler, hrole, hrid]

/-- C3 witness: a concrete student application to "R1" on the empty store. -/
theorem c3_witness :
    handle .postApply
      { authorization := some "Bearer tok", research_id := "R1",
        application_text := "please" }
      (fun _ => some { uid := "s1", email := "s@uni.edu", name := "Stu",
                       role := some "student" }) {} none =
      (some (201, .applyOk "Application submitted"
         { student_id := "s1", research_id := "R1",
           application_text := "please" }),
       { applications := [⟨"s1", "R1", "please"⟩] }) :=
  c3_apply_creates_application _ _ {}
    { uid := "s1", email := "s@uni.edu", name := "Stu",
      role := some "student" } (by decide) rfl rfl

/-- C4: GET `/api/research` and GET `/api/discussions` run no authentication:
whatever the Authorization header and verifier, a successful read answers 200
with the (possibly empty) listing of the stored records, the store is
untouched, and no outcome — persistence failure included — ever yields a 401
or a 403. -/
theorem c4_public_listings (rq : Req) (verify : String → Option AuthUser)
    (s : Store) (db : Option String) :
    handle .getResearch rq verify s none =
      (some (200, .researchList (s.research.map (fun r =>
        (r, (s.users.find? (fun x => x._id = r.professor_id)).map
              (fun x => (x.full_name, x.email)))))), s) ∧
    handle .getDiscussions rq verify s none =
      (some (200, .discussionList (s.discussions.map (fun d =>
        (d, (s.users.find? (fun x => x._id = d.created_by)).map
              (fun x => (x.full_name, x.email)))))), s) ∧
    statusOf (handle .getResearch rq verify s db) ≠ some 401 ∧
    statusOf (handle .getResearch rq verify s db) ≠ some 403 ∧
    statusOf (handle .getDiscussions rq verify s db) ≠ some 401 ∧
    statusOf (handle .getDiscussions rq verify s db) ≠ some 403 := by
  refine ⟨rfl, rfl, ?_, ?_, ?_, ?_⟩ <;>
    cases db <;> simp [handle, getResearchHandler, getDiscussionsHandler, statusOf]

/-- C4 witness: the public listings on the empty store with a failing
verifier and no header still answer 200 with the empty list. -/
theorem c4_witness :
    handle .getResearch {} (fun _ => none) {} none =
      (some (200, .researchList []), {}) ∧
    statusOf (handle .getDiscussions {} (fun _ => none) {} (some "db down")) ≠
      some 401 :=
  ⟨(c4_public_listings {} (fun _ => none) {} none).1,
   (c4_public_listings {} (fun _ => none) {} (some "db down")).2.2.2.2.1⟩

/-- A successful `findOne` by email means at least one stored user has that
email. -/
theorem countEmail_pos_of_find (s : Store) (e : String) (usr : UserRec)
    (h : s.users.find? (fun x => x.email = e) = some usr) :
    1 ≤ countEmail s e := by
  have hm : usr ∈ s.users := List.mem_of_find?_eq_some h
  have hp : usr.email = e := by simpa using List.find?_some h
  have hmem : usr ∈ s.users.filter (fun x => x.email = e) :=
    List.mem_filter.mpr ⟨hm, by simpa using hp⟩
  exact List.length_pos_of_mem hmem

/-- C5: login is idempotent on identity.  Starting from a store satisfying
the schema's unique-email index (at most one user with the claimed email),
two successful logins in sequence leave exactly one stored user with that
email, and the second call changes nothing: it retrieves instead of
duplicating. -/
theorem c5_login_idempotent (u : AuthUser) (s : Store)
    (huniq : countEmail s u.email ≤ 1) :
    countEmail (loginHandler u (loginHandler u s none).2 none).2 u.email = 1 ∧
    (loginHandler u (loginHandler u s none).2 none).2 =
      (loginHandler u s none).2 := by
  cases hfind : s.users.find? (fun x => x.email = u.email) with
  | some usr =>
    have h1 : (loginHandler u s none).2 = s := by simp [loginHandler, hfind]
    rw [h1, h1]
    exact ⟨Nat.le_antisymm huniq (countEmail_pos_of_find s u.email usr hfind),
           rfl⟩
  | none =>
    have hnone : ∀ x ∈ s.users, ¬ (x.email = u.email) := by
      simpa using List.find?_eq_none.mp hfind
    have h1 : (loginHandler u s none).2 =
        { s with
          users := s.users ++
            [{ _id := toString s.nextId, firebase_uid := u.uid,
               full_name := u.name, email := u.email }],
          nextId := s.nextId + 1 } := by
      simp [loginHandler, hfind]
    have hfind2 :
        ((loginHandler u s none).2).users.find?
          (fun x => x.email = u.email) =
          some { _id := toString s.nextId, firebase_uid := u.uid,
                 full_name := u.name, email := u.email } := by
      rw [h1]
      rw [List.find?_append, hfind]
      simp
    have h2 : (loginHandler u (loginHandler u s none).2 none).2 =
        (loginHandler u s none).2 := by
      conv in loginHandler u (loginHandler u s none).2 none =>
        rw [loginHandler]
      simp [hfind2]
    refine ⟨?_, h2⟩
    rw [h2, h1]
    unfold countEmail
    rw [List.filter_append]
    have hl : s.users.filter (fun x => x.email = u.email) = [] :=
      List.filter_eq_nil_iff.mpr (by simpa using hnone)
    rw [hl]
    simp

/-- C5 witness: two logins of a fresh identity against the empty store leave
exactly one user record. -/
theorem c5_witness :
    countEmail (ScholarX.loginHandler ⟨"u1", "a@uni.edu", "Ada", none⟩
      (ScholarX.loginHandler ⟨"u1", "a@uni.edu", "Ada", none⟩ {} none).2
      none).2 "a@uni.edu" = 1 ∧
    (ScholarX.loginHandler ⟨"u1", "a@uni.edu", "Ada", none⟩
      (ScholarX.loginHandler ⟨"u1", "a@uni.edu", "Ada", none⟩ {} none).2
      none).2 =
      (ScholarX.loginHandler ⟨"u1", "a@uni.edu", "Ada", none⟩ {} none).2 :=
  c5_login_idempotent ⟨"u1", "a@uni.edu", "Ada", none⟩ {} (by decide)

/-- C6 counterexample: an authenticated professor posting research while the
store rejects the insert gets no response at all — in particular the failure
is not surfaced as a 500. -/
theorem c6_counterexample :
    (handle .postResearch { authorization := some "Bearer tok" }
      (fun _ => some ⟨"p1", "p@uni.edu", "Prof", some "professor"⟩)
      {} (some "db down")).1 = none ∧
    statusOf (handle .postResearch { authorization := some "Bearer tok" }
      (fun _ => some ⟨"p1", "p@uni.edu", "Prof", some "professor"⟩)
      {} (some "db down")) ≠ some 500 := by
  decide

/-- C6 amended: only the three user-listing handlers wrap their persistence
call in try/catch, surfacing a failure as a 500 with the raw error attached
(and no retry); in the login, research-creation, application and public
listing handlers a persistence failure produces no response at all. -/
theorem c6_amended (s : Store) (rq : Req) (u : AuthUser) (err : String) :
    getProfessorsHandler { u with role := some "student" } s (some err) =
      some (500, .msgErr "Error fetching professors" err) ∧
    getStudentsHandler { u with role := some "professor" } s (some err) =
      some (500, .msgErr "Error fetching students" err) ∧
    getUsersHandler { u with role := some "student" } s (some err) =
      some (500, .msgErr "Error fetching users" err) ∧
    getUsersHandler { u with role := some "professor" } s (some err) =
      some (500, .msgErr "Error fetching users" err) ∧
    getUsersHandler { u with role := some "admin" } s (some err) =
      some (500, .msgErr "Error fetching users" err) ∧
    (loginHandler u s (some err)).1 = none ∧
    (postResearchHandler { u with role := some "professor" } rq s
      (some err)).1 = none ∧
    (postApplyHandler { u with role := some "student" } rq s
      (some err)).1 = none ∧
    getResearchHandler s (some err) = none ∧
    getDiscussionsHandler s (some err) = none := by
  refine ⟨?_, ?_, ?_, ?_, ?_, rfl, ?_, ?_, rfl, rfl⟩ <;>
    simp [getProfessorsHandler, getStudentsHandler, getUsersHandler,
      postResearchHandler, postApplyHandler]

/-- C7: the role-dependent view of GET `/api/users`: a student caller gets
exactly the stored users with role professor, a professor caller exactly the
stored students, an admin all stored users (each serialized without
`firebase_uid`), and any of the three gets a 500 carrying the error when the
query fails. -/
theorem c7_users_view (u : AuthUser) (s : Store) (err : String) :
    getUsersHandler { u with role := some "student" } s none =
      some (200, .userDocs ((s.users.filter (fun x => x.role = "professor")).map
        (fun x => selectWithout "firebase_uid" x.toDoc))) ∧
    getUsersHandler { u with role := some "professor" } s none =
      some (200, .userDocs ((s.users.filter (fun x => x.role = "student")).map
        (fun x => selectWithout "firebase_uid" x.toDoc))) ∧
    getUsersHandler { u with role := some "admin" } s none =
      some (200, .userDocs (s.users.map
        (fun x => selectWithout "firebase_uid" x.toDoc))) ∧
    getUsersHandler { u with role := some "student" } s (some err) =
      some (500, .msgErr "Error fetching users" err) ∧
    getUsersHandler { u with role := some "professor" } s (some err) =
      some (500, .msgErr "Error fetching users" err) ∧
    getUsersHandler { u with role := some "admin" } s (some err) =
      some (500, .msgErr "Error fetching users" err) := by
  refine ⟨?_, ?_, ?_, ?_, ?_, ?_⟩ <;>
    simp [getUsersHandler, findUsersNoUid, findUsers]

/-- Dropping a field of a serialized document really removes it: no
remaining key/value pair carries that field name. -/
theorem selectWithout_not_mem (field : String) (d : Doc) :
    ∀ kv ∈ selectWithout field d, kv.1 ≠ field := by
  intro kv hkv
  have := List.of_mem_filter hkv
  simpa using this

/-- The user-listing query never leaves the subject-id field in any returned
document. -/
theorem findUsersNoUid_clean (s : Store) (p : UserRec → Bool) :
    ∀ d ∈ findUsersNoUid s p, ∀ kv ∈ d, kv.1 ≠ "firebase_uid" := by
  intro d hd kv hkv
  obtain ⟨x, _, rfl⟩ := List.mem_map.mp hd
  exact selectWithout_not_mem _ _ kv hkv

/-- C8: whenever one of the three role-scoped user listings answers with a
document list, no document of that list contains the `firebase_uid` field. -/
theorem c8_no_uid_leak (u : AuthUser) (s : Store) (db : Option String)
    (st : Nat) (docs : List Doc)
    (h : getProfessorsHandler u s db = some (st, .userDocs docs) ∨
         getStudentsHandler u s db = some (st, .userDocs docs) ∨
         getUsersHandler u s db = some (st, .userDocs docs)) :
    ∀ d ∈ docs, ∀ kv ∈ d, kv.1 ≠ "firebase_uid" := by
  rcases h with h | h | h <;>
    [unfold getProfessorsHandler at h; unfold getStudentsHandler at h;
     unfold getUsersHandler at h] <;>
    (repeat' split at h) <;>
    simp only [Option.some.injEq, Prod.mk.injEq, Body.userDocs.injEq,
      reduceCtorEq, false_and, and_false] at h
  all_goals
    obtain ⟨-, hdocs⟩ := h
  all_goals
    subst hdocs
  all_goals
    exact findUsersNoUid_clean s _

/-- C8 witness: the student view of the professors listing over a store with
one professor yields documents evaluating free of the `firebase_uid` key. -/
theorem c8_witness :
    ([ScholarX.selectWithout "firebase_uid"
        (ScholarX.UserRec.toDoc
          ⟨"id0", "fb-prof", "Prof", "p@uni.edu", "professor", "U", [], 3⟩)].all
      (fun d => d.all (fun kv => kv.1 != "firebase_uid"))) = true := by
  have hclean := c8_no_uid_leak ⟨"s1", "s@uni.edu", "Stu", some "student"⟩
    { users := [⟨"id0", "fb-prof", "Prof", "p@uni.edu", "professor", "U", [], 3⟩] }
    none 200
    [ScholarX.selectWithout "firebase_uid"
      (ScholarX.UserRec.toDoc
        ⟨"id0", "fb-prof", "Prof", "p@uni.edu", "professor", "U", [], 3⟩)]
    (Or.inl (by decide))
  simp only [List.all_eq_true]
  intro d hd kv hkv
  simpa using hclean d hd kv hkv

/-- C9: an authenticated GET `/api/users` whose caller role is none of
student, professor or admin answers 200 with an empty (undefined) body, and
does so whatever the persistence outcome — no query runs. -/
theorem c9_unknown_role_empty (u : AuthUser) (s : Store) (db : Option String)
    (h1 : u.role ≠ some "student") (h2 : u.role ≠ some "professor")
    (h3 : u.role ≠ some "admin") :
    getUsersHandler u s db = some (200, .empty) := by
  unfold getUsersHandler
  simp [h1, h2, h3]

/-- C9 witness: a caller with no role claim gets the empty 200 even while the
store is failing. -/
theorem c9_witness :
    getUsersHandler ⟨"x1", "x@uni.edu", "X", none⟩ {} (some "db down") =
      some (200, .empty) :=
  c9_unknown_role_empty ⟨"x1", "x@uni.edu", "X", none⟩ {} (some "db down")
    (by decide) (by decide) (by decide)

/-- C10: when the claimed email already matches a stored user (the first
match of `findOne`), login answers 200 with that stored record exactly as
stored — even when its `firebase_uid` or name differ from the claims — and
leaves the store untouched: no persistence write happens. -/
theorem c10_login_existing_unchanged (u : AuthUser) (s : Store)
    (usr : UserRec)
    (hfind : s.users.find? (fun x => x.email = u.email) = some usr) :
    loginHandler u s none = (some (200, .loginOk "Login successful" usr), s) := by
  simp [loginHandler, hfind]

/-- C10 witness: a login whose claims carry a new uid and name against a
store already holding that email returns the stored record unchanged. -/
theorem c10_witness :
    ScholarX.loginHandler ⟨"new-uid", "a@uni.edu", "New Name", none⟩
      { users := [⟨"id0", "old-uid", "Old Name", "a@uni.edu", "professor", "U", ["ml"], 7⟩] }
      none =
      (some (200, .loginOk "Login successful"
        ⟨"id0", "old-uid", "Old Name", "a@uni.edu", "professor", "U", ["ml"], 7⟩),
       { users := [⟨"id0", "old-uid", "Old Name", "a@uni.edu", "professor", "U", ["ml"], 7⟩] }) :=
  c10_login_existing_unchanged ⟨"new-uid", "a@uni.edu", "New Name", none⟩
    { users := [⟨"id0", "old-uid", "Old Name", "a@uni.edu", "professor", "U", ["ml"], 7⟩] }
    ⟨"id0", "old-uid", "Old Name", "a@uni.edu", "professor", "U", ["ml"], 7⟩
    (by decide)

end ScholarX
